import Mathlib

/-!
Verification model of turnkey-pylib, file pylib/stdtrap.py.

The Python module captures stdout/stderr at the file-descriptor level: a
Splicer redirects a trapped fd into a pipe, forks a collector process that
drains the pipe into buffered sinks, and restores everything on close.

The definitions below are a shallow embedding of that module: byte strings
are lists of byte values, fd tables are partial maps from descriptor
numbers to open-file-description identifiers, and the collector loop is a
step function driven by explicit scheduler events (producer writes, signal
delivery, poll results), so that every interleaving of the parent and the
collector corresponds to some event list.
-/

/-- Byte strings: a Python str of bytes is modelled as a list of byte values. -/
abbrev Bytes := List Nat

/-- File descriptor numbers. -/
abbrev Fd := Nat

/-- Open file description identifiers: what an fd table slot points at. -/
abbrev OFD := Nat

/-! ## Sink (stdtrap.py lines 84-104) -/

/-- Argument accepted by the Sink constructor: either a raw integer fd, or a
file-like object exposing a fileno method; the object case is modelled by
the fd number its fileno call returns. -/
inductive FdArg where
  | raw (fd : Fd)
  | obj (fileno : Fd)
  deriving DecidableEq

/-- Test mirroring the hasattr check on fileno in the constructor. -/
def FdArg.hasFileno : FdArg → Bool
  | .raw _ => false
  | .obj _ => true

/-- Sink: a destination fd plus the pending write buffer self.data. -/
structure Sink where
  fd : Fd
  data : Bytes
  deriving DecidableEq

/-- Sink constructor: if the argument has a fileno attribute the stored fd
is the fd.fileno() result, otherwise the argument itself; self.data starts
as the empty string. -/
def Sink.init (arg : FdArg) : Sink :=
  match arg with
  | .obj fileno => { fd := fileno, data := [] }
  | .raw fd => { fd := fd, data := [] }

/-- Sink.buffer(data): self.data += data, a pure append with no I/O. -/
def Sink.buffer (s : Sink) (d : Bytes) : Sink :=
  { s with data := s.data ++ d }

/-- Outcome of the os.write call inside Sink.write: the call either raises
some exception, or returns the number of bytes the OS accepted. -/
inductive WriteOutcome where
  | error
  | ok (written : Nat)
  deriving DecidableEq

/-- Sink.write: tries os.write(self.fd, self.data); if it raises, returns
False with the buffer untouched; otherwise self.data loses the written
prefix and the result is True iff the buffer is now empty. -/
def Sink.write (s : Sink) : WriteOutcome → Bool × Sink
  | .error => (false, s)
  | .ok written =>
      let rest := s.data.drop written
      (rest.isEmpty, { s with data := rest })

/-! ## SignalEvent (stdtrap.py lines 50-69) -/

/-- Per-process state of a SignalEvent: whether the handler for SIG is
installed, and the current flag self.value. -/
structure SigState where
  handler_installed : Bool
  value : Bool
  deriving DecidableEq

/-- SignalEvent constructor: self.value = False, then signal.signal
installs the handler for the fixed signal. -/
def SignalEvent.construct : SigState :=
  { handler_installed := true, value := false }

/-- Events that can touch the flag of a SignalEvent. -/
inductive SigOp where
  | deliver
  | otherSignal
  | clear
  deriving DecidableEq

/-- Effect of one event on the flag: delivery of the fixed signal runs the
installed handler, which sets self.value = True; delivery of any other
signal does not touch the flag; clear() sets self.value = False. -/
def SignalEvent.step (v : Bool) : SigOp → Bool
  | .deliver => true
  | .otherSignal => v
  | .clear => false

/-- SignalEvent.isSet: a plain, non-blocking read of the flag. -/
def SignalEvent.isSet (v : Bool) : Bool := v

/-! ## set_blocking (stdtrap.py lines 77-82) -/

/-- Linux O_APPEND status flag, octal 02000. -/
def O_APPEND : Nat := 1024

/-- Linux O_NONBLOCK status flag, octal 04000. -/
def O_NONBLOCK : Nat := 2048

/-- Linux O_ASYNC status flag, octal 020000. -/
def O_ASYNC : Nat := 8192

/-- The file status flags that F_SETFL is allowed to change. -/
def SETFL_MASK : Nat := O_APPEND ||| O_NONBLOCK ||| O_ASYNC

/-- All bits of a 32-bit flags word. -/
def ALL_BITS : Nat := 2 ^ 32 - 1

/-- Kernel semantics of fcntl(fd, F_SETFL, arg): the modifiable status
flags are replaced by the corresponding bits of arg; the remaining flags
of the open file description are kept. -/
def fcntl_F_SETFL (status arg : Nat) : Nat :=
  (status &&& (ALL_BITS ^^^ SETFL_MASK)) ||| (arg &&& SETFL_MASK)

/-- set_blocking(fd, block) from the source: arg = os.O_NONBLOCK; if block
then the line written as arg =~ arg parses as an assignment of the bitwise
complement, arg = ~arg; finally fcntl(fd, F_SETFL, arg). As seen by the
kernel the complement of the Python int is the 32-bit pattern with every
bit except O_NONBLOCK set. The argument status is the current status-flag
word of the descriptor, the result is the new one. -/
def set_blocking (status : Nat) (block : Bool) : Nat :=
  let arg := O_NONBLOCK
  let arg2 := if block then ALL_BITS ^^^ arg else arg
  fcntl_F_SETFL status arg2

/-! ## Collector loop of StdTrap.Splicer._splice (stdtrap.py lines 164-231)

The forked child runs a poll loop that drains the spliced channel into the
sinks. We model it as a labelled transition system: the state below holds
the channel contents, the stop flags, the sinks and the bytes actually
delivered to every destination fd, and one scheduler event corresponds to
one observable step of either the parent (a write to the trapped fd, the
dup2 that closes the channel write end, the stop signal) or the child (the
loop-head stop check, one poll result on the channel, one poll result on a
sink). Any real interleaving is some list of these events. -/

/-- How the collector process terminates: via os._exit(code), or via the
normal interpreter shutdown machinery. The source calls os._exit(0). -/
inductive ExitKind where
  | osExit (code : Nat)
  | normalShutdown
  deriving DecidableEq

/-- State of the collector child of StdTrap.Splicer._splice. -/
structure CState where
  channel : Bytes
  writerClosed : Bool
  sig : Bool
  closed : Bool
  rRegistered : Bool
  sinks : List Sink
  delivered : Fd → Bytes
  exited : Option ExitKind

/-- Sink list built at collector start, stdtrap.py lines 186-190:
sinks = [Sink(outpipe)], plus one Sink per extra file, plus
Sink(orig_fd_dup) when transparent is requested. -/
def initSinks (outpipeFd origFdDup : Fd) (files : List Fd) (transparent : Bool) : List Sink :=
  [Sink.mk outpipeFd []] ++ files.map (fun f => Sink.mk f [])
    ++ (if transparent then [Sink.mk origFdDup []] else [])

/-- has_unwritten_data, stdtrap.py line 193: some sink still buffers data. -/
def hasUnwritten (sinks : List Sink) : Bool :=
  sinks.any (fun s => !s.data.isEmpty)

/-- Collector start state: empty channel, no stop observed, channel read
end registered with poll, fresh sinks, nothing delivered anywhere. -/
def initCState (outpipeFd origFdDup : Fd) (files : List Fd) (transparent : Bool) : CState :=
  { channel := []
    writerClosed := false
    sig := false
    closed := false
    rRegistered := true
    sinks := initSinks outpipeFd origFdDup files transparent
    delivered := fun _ => []
    exited := none }

/-- Scheduler events.  write d: the parent process writes d to the trapped
fd, so d enters the channel.  hup: the dup2 in Splicer.close closes the
channel write end.  sigStop: the stop signal is delivered, setting the
signal_closed flag.  checkStop: the collector executes the loop head,
lines 193-199.  pollR: poll reports the channel read end ready (POLLIN
and/or POLLHUP), lines 206-219.  pollOut i o: poll reports sink i ready
for writing and its write has outcome o, lines 221-229. -/
inductive Ev where
  | write (d : Bytes)
  | hup
  | sigStop
  | checkStop
  | pollR
  | pollOut (i : Nat) (o : WriteOutcome)

/-- One transition of the system.  Events whose precondition does not hold
in the current state (for instance a poll result that the kernel could not
report, or any collector step after os._exit) leave the state unchanged. -/
def cstep (s : CState) : Ev → CState
  | .write d =>
      if s.writerClosed then s else { s with channel := s.channel ++ d }
  | .hup => { s with writerClosed := true }
  | .sigStop => { s with sig := true }
  | .checkStop =>
      if s.exited.isSome then s
      else
        -- lines 193-199: has_unwritten_data; if not closed: closed =
        -- signal_closed.isSet(); if closed and not has_unwritten_data: break
        let closed2 := s.closed || s.sig
        if closed2 && !hasUnwritten s.sinks then
          { s with closed := closed2, exited := some (ExitKind.osExit 0) }
        else
          { s with closed := closed2 }
  | .pollR =>
      if s.exited.isSome || !s.rRegistered
          || (s.channel.isEmpty && !s.writerClosed) then s
      else
        -- the kernel reports POLLIN iff data is available, in which case
        -- data = r_fh.read() takes everything and every sink buffers it
        -- (lines 208-215); it reports POLLHUP iff the write end is closed,
        -- in which case closed = True and r is unregistered (lines 217-219)
        { s with
            sinks := if s.channel.isEmpty then s.sinks
              else s.sinks.map (fun k => k.buffer s.channel)
            channel := []
            closed := if s.writerClosed then true else s.closed
            rRegistered := if s.writerClosed then false else s.rRegistered }
  | .pollOut i o =>
      if s.exited.isSome then s
      else
        match s.sinks[i]? with
        | none => s
        | some k =>
            if k.data.isEmpty then s
            else
              match o with
              | .error => s
              | .ok n =>
                  -- os.write reports at most the buffered length
                  let m := min n k.data.length
                  let k2 := (k.write (WriteOutcome.ok m)).2
                  { s with
                      sinks := s.sinks.set i k2
                      delivered := fun f =>
                        if f = k.fd then s.delivered f ++ k.data.take m else s.delivered f }

/-- Run of the collector system over a list of scheduler events. -/
def crun (s : CState) (evs : List Ev) : CState :=
  evs.foldl cstep s

/-! ## Parent-side os calls (fd table plus call trace)

Splicer.close (lines 239-252), the parent path of _splice (lines 127-162)
and UnitedStdTrap (lines 282-302) are straight-line sequences of os calls.
We interpret them over a world holding the fd table of the process, the
bytes the collector has pushed into the outpipe, and the ordered trace of
os calls performed, so that both the effects and the order can be stated. -/

/-- One os call performed by the parent process. -/
inductive OsAction where
  | dupCall (src newFd : Fd)
  | dup2 (src dst : Fd)
  | closeFd (fd : Fd)
  | pipeCreate (rFd wFd : Fd)
  | fork
  | kill (pid : Nat)
  | readToEof (fd : Fd)
  | waitpid (pid : Nat)
  deriving DecidableEq

/-- Parent-process world: fd table, the byte sequence sitting in the
outpipe (written there by the collector), whether the collector has been
reaped, and the trace of os calls made so far, in order. -/
structure World where
  table : Fd → Option OFD
  outpipeBytes : Bytes
  reaped : Bool
  trace : List OsAction

/-- os.dup(src) returning the fresh descriptor newFd: newFd now refers to
the same open file description as src. -/
def World.dup (w : World) (src newFd : Fd) : World :=
  { w with
      table := fun f => if f = newFd then w.table src else w.table f
      trace := w.trace ++ [OsAction.dupCall src newFd] }

/-- os.dup2(src, dst): the slot dst is overwritten with the target of src,
implicitly closing whatever dst referred to. -/
def World.dup2 (w : World) (src dst : Fd) : World :=
  { w with
      table := fun f => if f = dst then w.table src else w.table f
      trace := w.trace ++ [OsAction.dup2 src dst] }

/-- os.close(fd): the slot fd becomes free. -/
def World.closeFd (w : World) (fd : Fd) : World :=
  { w with
      table := fun f => if f = fd then none else w.table f
      trace := w.trace ++ [OsAction.closeFd fd] }

/-- os.pipe() or pty.openpty(): two fresh descriptors referring to two
fresh open file descriptions. -/
def World.pipe (w : World) (rFd wFd : Fd) (rOfd wOfd : OFD) : World :=
  { w with
      table := fun f => if f = wFd then some wOfd else if f = rFd then some rOfd else w.table f
      trace := w.trace ++ [OsAction.pipeCreate rFd wFd] }

/-- os.fork(): no fd-table effect in the parent. -/
def World.fork (w : World) : World :=
  { w with trace := w.trace ++ [OsAction.fork] }

/-- os.kill, as used by SignalEvent.send: no fd-table effect. -/
def World.kill (w : World) (pid : Nat) : World :=
  { w with trace := w.trace ++ [OsAction.kill pid] }

/-- Reading the outpipe to end of stream: blocks until the collector has
exited and yields every byte the collector wrote into the outpipe. -/
def World.readToEof (w : World) (fd : Fd) : Bytes × World :=
  (w.outpipeBytes, { w with trace := w.trace ++ [OsAction.readToEof fd] })

/-- os.waitpid(pid, 0): reaps the collector. -/
def World.waitpid (w : World) (pid : Nat) : World :=
  { w with reaped := true, trace := w.trace ++ [OsAction.waitpid pid] }

/-! ## Splicer (parent side) -/

/-- The Splice handle held by the parent, stdtrap.py lines 233-237. -/
structure Splicer where
  splicer_pid : Nat
  splicer_reader : Fd
  orig_fd_dup : Fd
  spliced_fd : Fd
  deriving DecidableEq

/-- Splicer.close, stdtrap.py lines 239-252: dup2 the saved original back
over the spliced fd (restoring it and dropping the last reference to the
channel write end in this process), send the stop signal to the collector,
close the saved duplicate, read the outpipe to end of stream, reap the
collector, and return the captured bytes. -/
def Splicer.close (s : Splicer) (w : World) : Bytes × World :=
  let w1 := w.dup2 s.orig_fd_dup s.spliced_fd
  let w2 := w1.kill s.splicer_pid
  let w3 := w2.closeFd s.orig_fd_dup
  let rw := w3.readToEof s.splicer_reader
  let w4 := rw.2.waitpid s.splicer_pid
  (rw.1, w4)

/-- Parent path of StdTrap.Splicer._splice, stdtrap.py lines 127-162:
duplicate the trapped fd, create the channel, dup2 its write end over the
trapped fd and close the now redundant copy, create the outpipe, fork,
then in the parent close the outpipe write end and the channel read end
and return the Splice handle.  The fresh descriptor numbers and the fresh
open file descriptions chosen by the kernel are passed as arguments. -/
def spliceParent (world : World) (spliced_fd orig_dup r w opr opw : Fd)
    (chanR chanW outR outW : OFD) (pid : Nat) : Splicer × World :=
  let w1 := world.dup spliced_fd orig_dup
  let w2 := w1.pipe r w chanR chanW
  let w3 := w2.dup2 w spliced_fd
  let w4 := w3.closeFd w
  let w5 := w4.pipe opr opw outR outW
  let w6 := w5.fork
  let w7 := w6.closeFd opw
  let w8 := w7.closeFd r
  (⟨pid, opr, orig_dup, spliced_fd⟩, w8)

/-! ## UnitedStdTrap (stdtrap.py lines 282-302) -/

/-- The UnitedStdTrap object: the single stdout Splicer, the saved
duplicate of the original stderr fd, and the three buffer attributes that
all alias one captured stream after close. -/
structure UnitedStdTrap where
  stdout_splice : Splicer
  stderr_dupfd : Fd
  std : Option Bytes
  stdout : Option Bytes
  stderr : Option Bytes
  deriving DecidableEq

/-- UnitedStdTrap constructor, lines 283-294: splice stdout only, save a
duplicate of the stderr fd, then dup2 the stdout fd onto the stderr fd so
both streams funnel into the one collector; the buffers start as None. -/
def UnitedStdTrap.init (world : World) (stdout_fd stderr_fd : Fd)
    (orig_dup r w opr opw stderr_dupfd : Fd)
    (chanR chanW outR outW : OFD) (pid : Nat) : UnitedStdTrap × World :=
  let p := spliceParent world stdout_fd orig_dup r w opr opw chanR chanW outR outW pid
  let w1 := p.2.dup stderr_fd stderr_dupfd
  let w2 := w1.dup2 stdout_fd stderr_fd
  (⟨p.1, stderr_dupfd, none, none, none⟩, w2)

/-- UnitedStdTrap.close, lines 296-302: close the stdout splice and store
the captured stream in std, stdout and stderr alike, then dup2 the saved
stderr duplicate back onto the stderr fd and close the duplicate. -/
def UnitedStdTrap.close (t : UnitedStdTrap) (world : World) (stderr_fd : Fd) :
    UnitedStdTrap × World :=
  let c := t.stdout_splice.close world
  let t2 := { t with std := some c.1, stdout := some c.1, stderr := some c.1 }
  let w1 := c.2.dup2 t.stderr_dupfd stderr_fd
  let w2 := w1.closeFd t.stderr_dupfd
  (t2, w2)

/-- One full UnitedStdTrap round: construct, then close. -/
def unitedRound (world : World) (stdout_fd stderr_fd : Fd)
    (orig_dup r w opr opw stderr_dupfd : Fd)
    (chanR chanW outR outW : OFD) (pid : Nat) :
    (UnitedStdTrap × World) × (UnitedStdTrap × World) :=
  let i := UnitedStdTrap.init world stdout_fd stderr_fd orig_dup r w opr opw
    stderr_dupfd chanR chanW outR outW pid
  (i, UnitedStdTrap.close i.1 i.2 stderr_fd)

/-! ## Setup-failure behaviour of _splice (stdtrap.py lines 127-162)

The source wraps none of its setup calls in try/finally, so when one of
them raises, the exception propagates out of the Splicer constructor with
the descriptors opened by the earlier calls still open.  We model the
setup sequence with an oracle naming the os call that fails, and thread
the list of descriptors that _splice has opened and not yet closed. -/

/-- The fallible setup calls of _splice, in source order. -/
inductive SetupStep where
  | dupOrig
  | mkChannel
  | mkOutpipe
  | doFork
  deriving DecidableEq

/-- Descriptor numbers allocated during setup (symbolic, pairwise
distinct). -/
def origFdDupFd : Fd := 10

/-- Channel read end allocated during setup. -/
def chanRFd : Fd := 11

/-- Channel write end allocated during setup. -/
def chanWFd : Fd := 12

/-- Outpipe read end allocated during setup. -/
def outpipeRFd : Fd := 13

/-- Outpipe write end allocated during setup. -/
def outpipeWFd : Fd := 14

/-- Return value of a successful _splice call. -/
structure SpliceResult where
  splicer_pid : Nat
  splicer_reader : Fd
  orig_fd_dup : Fd
  deriving DecidableEq

/-- Record that an os call opened a descriptor. -/
def osOpen (opened : List Fd) (fd : Fd) : List Fd := opened ++ [fd]

/-- Record that an os call closed a descriptor. -/
def osClose (opened : List Fd) (fd : Fd) : List Fd := opened.filter (· ≠ fd)

/-- The setup sequence of _splice with a failure oracle: the first
component is the propagated exception or the returned handle, the second
is the list of descriptors opened by _splice and still open when it
returns or raises.  The sequence mirrors lines 131-162: os.dup, then
os.openpty or os.pipe, then os.dup2 plus os.close of the write end, then
Pipe(), then os.fork, then the parent closes outpipe.w and r. -/
def spliceSetup (failAt : Option SetupStep) : Except SetupStep SpliceResult × List Fd :=
  let opened : List Fd := []
  if failAt = some SetupStep.dupOrig then (Except.error SetupStep.dupOrig, opened)
  else
    let opened := osOpen opened origFdDupFd
    if failAt = some SetupStep.mkChannel then (Except.error SetupStep.mkChannel, opened)
    else
      let opened := osOpen (osOpen opened chanRFd) chanWFd
      let opened := osClose opened chanWFd
      if failAt = some SetupStep.mkOutpipe then (Except.error SetupStep.mkOutpipe, opened)
      else
        let opened := osOpen (osOpen opened outpipeRFd) outpipeWFd
        if failAt = some SetupStep.doFork then (Except.error SetupStep.doFork, opened)
        else
          let opened := osClose (osClose opened outpipeWFd) chanRFd
          (Except.ok ⟨100, outpipeRFd, origFdDupFd⟩, opened)

/-! ## Sink operation sequences -/

/-- One externally visible operation on a Sink: a buffer call with some
data, or a write call whose underlying os.write has the given outcome. -/
inductive SinkOp where
  | bufferOp (d : Bytes)
  | writeOp (o : WriteOutcome)

/-- Concatenation, in order, of every byte sequence handed to buffer over
an operation sequence. -/
def opsInput : List SinkOp → Bytes
  | [] => []
  | SinkOp.bufferOp d :: ops => d ++ opsInput ops
  | SinkOp.writeOp _ :: ops => opsInput ops

/-- Run an operation sequence on a sink; the second component collects the
bytes successfully written out of the buffer, in order. -/
def Sink.runOps (s : Sink) : List SinkOp → Sink × Bytes
  | [] => (s, [])
  | SinkOp.bufferOp d :: ops => Sink.runOps (s.buffer d) ops
  | SinkOp.writeOp WriteOutcome.error :: ops =>
      Sink.runOps (s.write WriteOutcome.error).2 ops
  | SinkOp.writeOp (WriteOutcome.ok n) :: ops =>
      let res := Sink.runOps (s.write (WriteOutcome.ok n)).2 ops
      (res.1, s.data.take n ++ res.2)

/-- Bytes written out plus bytes still pending always make up the initial
buffer followed by everything buffered since. -/
lemma Sink.runOps_written_append (ops : List SinkOp) :
    ∀ s : Sink, (s.runOps ops).2 ++ (s.runOps ops).1.data = s.data ++ opsInput ops := by
  induction ops with
  | nil => intro s; simp [Sink.runOps, opsInput]
  | cons op ops ih =>
      intro s
      cases op with
      | bufferOp d =>
          simp only [Sink.runOps, opsInput]
          rw [ih (s.buffer d)]
          simp [Sink.buffer, List.append_assoc]
      | writeOp o =>
          cases o with
          | error =>
              simp only [Sink.runOps, opsInput]
              rw [ih (s.write WriteOutcome.error).2]
              simp [Sink.write]
          | ok n =>
              simp only [Sink.runOps, opsInput]
              rw [List.append_assoc, ih (s.write (WriteOutcome.ok n)).2]
              simp [Sink.write, ← List.append_assoc, List.take_append_drop]

/-! ## Claim theorems -/

/-- C10: the Sink constructor accepts a raw integer fd or any object with
a fileno method; with a fileno attribute the stored destination fd is the
fileno() result, otherwise the argument itself, and in both cases the
pending buffer starts empty. -/
theorem sink_init_fd_and_empty_buffer : ∀ n : Fd,
    Sink.init (FdArg.obj n) = { fd := n, data := [] } ∧
    Sink.init (FdArg.raw n) = { fd := n, data := [] } ∧
    (FdArg.obj n).hasFileno = true ∧ (FdArg.raw n).hasFileno = false := by
  intro n
  exact ⟨rfl, rfl, rfl, rfl⟩

/-- C8: a SignalEvent starts cleared with the handler installed, its flag
goes from false to true only through delivery of the fixed signal, from
true to false only through an explicit clear, isSet is a plain read, and
repeated deliveries before a clear collapse to one observed true. -/
theorem signal_event_flag_transitions :
    SignalEvent.construct.value = false ∧
    SignalEvent.construct.handler_installed = true ∧
    SignalEvent.step false SigOp.deliver = true ∧
    SignalEvent.step false SigOp.clear = false ∧
    SignalEvent.step false SigOp.otherSignal = false ∧
    SignalEvent.step true SigOp.deliver = true ∧
    SignalEvent.step true SigOp.clear = false ∧
    SignalEvent.step true SigOp.otherSignal = true ∧
    (∀ v, SignalEvent.isSet v = v) := by
  refine ⟨rfl, rfl, rfl, rfl, rfl, rfl, rfl, rfl, fun v => rfl⟩

/-- C4: Sink.write never propagates a write error: an error outcome yields
false with the buffer untouched; a successful write of n bytes removes
exactly the written prefix from the pending buffer and returns true iff
the buffer is empty afterwards. -/
theorem sink_write_never_propagates : ∀ (s : Sink) (n : Nat),
    Sink.write s WriteOutcome.error = (false, s) ∧
    (n ≤ s.data.length →
      (Sink.write s (WriteOutcome.ok n)).2.data = s.data.drop n ∧
      s.data = s.data.take n ++ (Sink.write s (WriteOutcome.ok n)).2.data ∧
      ((Sink.write s (WriteOutcome.ok n)).1 = true ↔
        (Sink.write s (WriteOutcome.ok n)).2.data = [])) := by
  intro s n
  refine ⟨rfl, fun _ => ⟨rfl, ?_, ?_⟩⟩
  · exact (List.take_append_drop n s.data).symm
  · simp [Sink.write]

/-- Witness for C4 at a concrete sink and write count. -/
theorem sink_write_never_propagates_witness :
    2 ≤ (Sink.mk 5 [7, 8, 9]).data.length ∧
    (Sink.write (Sink.mk 5 [7, 8, 9]) (WriteOutcome.ok 2)).2.data = [9] ∧
    (Sink.write (Sink.mk 5 [7, 8, 9]) (WriteOutcome.ok 2)).1 = false ∧
    Sink.write (Sink.mk 5 [7, 8, 9]) WriteOutcome.error = (false, Sink.mk 5 [7, 8, 9]) := by
  have h := sink_write_never_propagates (Sink.mk 5 [7, 8, 9]) 2
  have h2 := h.2 (by decide)
  refine ⟨by decide, h2.1.trans (by decide), ?_, h.1⟩
  · decide

/-- C7: over any sequence of buffer and write calls starting from an empty
sink, the pending buffer is exactly the suffix of the concatenation of all
buffered bytes that has not yet been successfully written; buffer appends
without I/O, a failed write leaves the buffer unchanged, and for a write
that does not error the drained result holds iff the buffer is empty. -/
theorem sink_pending_is_unwritten_suffix : ∀ (fd : Fd) (ops : List SinkOp),
    ((Sink.mk fd []).runOps ops).2 ++ ((Sink.mk fd []).runOps ops).1.data = opsInput ops ∧
    ((Sink.mk fd []).runOps ops).1.data <:+ opsInput ops ∧
    (∀ (s : Sink) (d : Bytes), (Sink.buffer s d).data = s.data ++ d ∧ (Sink.buffer s d).fd = s.fd) ∧
    (∀ s : Sink, Sink.write s WriteOutcome.error = (false, s)) ∧
    (∀ (s : Sink) (n : Nat),
      ((Sink.write s (WriteOutcome.ok n)).1 = true ↔
        (Sink.write s (WriteOutcome.ok n)).2.data = [])) := by
  intro fd ops
  have h := Sink.runOps_written_append ops (Sink.mk fd [])
  simp only [List.nil_append] at h
  refine ⟨h, ⟨((Sink.mk fd []).runOps ops).2, h⟩, ?_, ?_, ?_⟩
  · intro s d; exact ⟨rfl, rfl⟩
  · intro s; rfl
  · intro s n; simp [Sink.write]

/-- Invariant of the collector system: the loop variable closed can only
have been set by the stop signal or by an observed hang-up, and an exited
collector exited through os._exit(0), with closed set and every sink
drained. -/
def CInv (s : CState) : Prop :=
  (s.closed = true → s.sig = true ∨ s.writerClosed = true) ∧
  (∀ k, s.exited = some k →
    k = ExitKind.osExit 0 ∧ s.closed = true ∧ hasUnwritten s.sinks = false)

lemma cinv_init (outFd origFd : Fd) (files : List Fd) (transparent : Bool) :
    CInv (initCState outFd origFd files transparent) := by
  constructor
  · intro h; simp [initCState] at h
  · intro k hk; simp [initCState] at hk

lemma cinv_step (s : CState) (e : Ev) (h : CInv s) : CInv (cstep s e) := by
  obtain ⟨h1, h2⟩ := h
  cases e with
  | write d =>
      simp only [cstep]
      split
      · exact ⟨h1, h2⟩
      · exact ⟨h1, h2⟩
  | hup =>
      exact ⟨fun _ => Or.inr rfl, h2⟩
  | sigStop =>
      exact ⟨fun _ => Or.inl rfl, h2⟩
  | checkStop =>
      simp only [cstep]
      split
      · exact ⟨h1, h2⟩
      · rename_i hex
        have hnone : s.exited = none := by
          cases hs : s.exited with
          | none => rfl
          | some k => rw [hs] at hex; simp at hex
        split
        · rename_i hcond
          rw [Bool.and_eq_true, Bool.not_eq_true'] at hcond
          refine ⟨?_, ?_⟩
          · intro hcl
            simp only [Bool.or_eq_true] at hcl
            rcases hcl with hc | hs
            · exact h1 hc
            · exact Or.inl hs
          · intro k hk
            have hk2 : ExitKind.osExit 0 = k := Option.some.inj hk
            exact ⟨hk2.symm, hcond.1, hcond.2⟩
        · refine ⟨?_, ?_⟩
          · intro hcl
            simp only [Bool.or_eq_true] at hcl
            rcases hcl with hc | hs
            · exact h1 hc
            · exact Or.inl hs
          · intro k hk
            rw [show ({ s with closed := s.closed || s.sig } : CState).exited = s.exited from rfl,
              hnone] at hk
            exact absurd hk (by simp)
  | pollR =>
      simp only [cstep]
      split
      · exact ⟨h1, h2⟩
      · rename_i hg
        have hnone : s.exited = none := by
          cases hs : s.exited with
          | none => rfl
          | some k => rw [hs] at hg; simp at hg
        refine ⟨?_, ?_⟩
        · intro hcl
          simp only at hcl
          by_cases hw : s.writerClosed
          · exact Or.inr hw
          · rw [if_neg hw] at hcl
            exact h1 hcl
        · intro k hk
          simp only at hk
          rw [hnone] at hk
          exact absurd hk (by simp)
  | pollOut i o =>
      simp only [cstep]
      split
      · exact ⟨h1, h2⟩
      · rename_i hex
        have hnone : s.exited = none := by
          cases hs : s.exited with
          | none => rfl
          | some k => rw [hs] at hex; simp at hex
        split
        · exact ⟨h1, h2⟩
        · rename_i k hk
          split
          · exact ⟨h1, h2⟩
          · cases o with
            | error => exact ⟨h1, h2⟩
            | ok n =>
                refine ⟨h1, ?_⟩
                intro k2 hk2
                simp only at hk2
                rw [hnone] at hk2
                exact absurd hk2 (by simp)

lemma cinv_run (evs : List Ev) : ∀ s : CState, CInv s → CInv (crun s evs) := by
  induction evs with
  | nil => intro s h; exact h
  | cons e evs ih =>
      intro s h
      exact ih (cstep s e) (cinv_step s e h)

/-- C2: the collector loop exits only when the loop variable closed has
been set, which happens only through the stop signal or a hang-up on the
channel read end, and only when no sink holds unwritten buffered bytes;
and the exit is the immediate non-flushing os._exit(0), never the normal
interpreter shutdown. -/
theorem collector_exits_only_stopped_and_drained :
    ∀ (outFd origFd : Fd) (files : List Fd) (transparent : Bool) (evs : List Ev) (k : ExitKind),
    (crun (initCState outFd origFd files transparent) evs).exited = some k →
    k = ExitKind.osExit 0 ∧
    (crun (initCState outFd origFd files transparent) evs).closed = true ∧
    ((crun (initCState outFd origFd files transparent) evs).sig = true ∨
      (crun (initCState outFd origFd files transparent) evs).writerClosed = true) ∧
    hasUnwritten (crun (initCState outFd origFd files transparent) evs).sinks = false := by
  intro outFd origFd files transparent evs k hk
  have hinv := cinv_run evs (initCState outFd origFd files transparent)
    (cinv_init outFd origFd files transparent)
  obtain ⟨h1, h2⟩ := hinv
  obtain ⟨hk0, hcl, hdr⟩ := h2 k hk
  exact ⟨hk0, hcl, h1 hcl, hdr⟩

/-- Witness for C2: after the stop signal and one loop-head check on a
fresh collector, the loop has exited through os._exit(0) in a stopped and
drained state. -/
theorem collector_exits_witness :
    (crun (initCState 6 3 [] false) [Ev.sigStop, Ev.checkStop]).exited
        = some (ExitKind.osExit 0) ∧
    ((crun (initCState 6 3 [] false) [Ev.sigStop, Ev.checkStop]).closed = true ∧
      ((crun (initCState 6 3 [] false) [Ev.sigStop, Ev.checkStop]).sig = true ∨
        (crun (initCState 6 3 [] false) [Ev.sigStop, Ev.checkStop]).writerClosed = true) ∧
      hasUnwritten (crun (initCState 6 3 [] false) [Ev.sigStop, Ev.checkStop]).sinks = false) := by
  have h := collector_exits_only_stopped_and_drained 6 3 [] false
    [Ev.sigStop, Ev.checkStop] (ExitKind.osExit 0) rfl
  exact ⟨rfl, h.2⟩

/-- The race schedule for C1: with transparency off and no extra files,
the producer writes the byte 65 to the trapped fd, the parent then closes
the channel write end (the dup2 of Splicer.close) and delivers the stop
signal, and the next thing the collector executes is the loop head. -/
def lostRun : CState :=
  crun (initCState 6 3 [] false) [Ev.write [65], Ev.hup, Ev.sigStop, Ev.checkStop]

/-- C1 as stated is violated by the code: because the loop head checks the
stop signal before polling the channel, the collector can observe the stop
signal with all sinks drained and break while the written byte is still
sitting unread in the channel.  On the schedule above the collector exits
through os._exit(0) with zero bytes delivered to the outpipe (so the
captured buffer read by Splicer.close is empty, not the written sequence
[65], which is still in the channel), even though the original destination
fd 3 correctly received no bytes. -/
theorem collector_stop_race_loses_written_bytes :
    lostRun.exited = some (ExitKind.osExit 0) ∧
    lostRun.delivered 6 = [] ∧
    lostRun.delivered 3 = [] ∧
    lostRun.channel = [65] :=
  ⟨rfl, rfl, rfl, rfl⟩

/-- C3: Splicer.close performs, in order, the dup2 of orig_fd_dup onto
spliced_fd, the stop signal to the collector, the close of orig_fd_dup,
the read of the outpipe to end of stream, and the waitpid on the
collector; it returns the captured bytes, and the dup2 restores the
original open file description at spliced_fd while the slot orig_fd_dup
ends up closed. -/
theorem splicer_close_order_and_effects : ∀ (s : Splicer) (w : World),
    (Splicer.close s w).2.trace = w.trace ++
      [OsAction.dup2 s.orig_fd_dup s.spliced_fd, OsAction.kill s.splicer_pid,
       OsAction.closeFd s.orig_fd_dup, OsAction.readToEof s.splicer_reader,
       OsAction.waitpid s.splicer_pid] ∧
    (Splicer.close s w).1 = w.outpipeBytes ∧
    (Splicer.close s w).2.reaped = true ∧
    (s.orig_fd_dup ≠ s.spliced_fd →
      (Splicer.close s w).2.table s.spliced_fd = w.table s.orig_fd_dup ∧
      (Splicer.close s w).2.table s.orig_fd_dup = none) := by
  intro s w
  refine ⟨?_, rfl, rfl, fun hne => ⟨?_, ?_⟩⟩
  · simp [Splicer.close, World.dup2, World.kill, World.closeFd, World.readToEof,
      World.waitpid]
  · simp [Splicer.close, World.dup2, World.kill, World.closeFd, World.readToEof,
      World.waitpid, Ne.symm hne]
  · simp [Splicer.close, World.dup2, World.kill, World.closeFd, World.readToEof,
      World.waitpid]

/-- Concrete world for the C3 witness: the trapped fd 1 points at the
channel write end (description 50), the saved duplicate fd 3 at the
original destination (description 40), and the collector has pushed the
bytes [65, 66] into the outpipe. -/
def closeWorld : World :=
  { table := fun f => if f = 1 then some 50 else if f = 3 then some 40 else none
    outpipeBytes := [65, 66]
    reaped := false
    trace := [] }

/-- Witness for C3 at a concrete splice handle and world. -/
theorem splicer_close_order_witness :
    (Splicer.close ⟨42, 6, 3, 1⟩ closeWorld).1 = [65, 66] ∧
    (Splicer.close ⟨42, 6, 3, 1⟩ closeWorld).2.table 1 = some 40 ∧
    (Splicer.close ⟨42, 6, 3, 1⟩ closeWorld).2.table 3 = none := by
  have h := splicer_close_order_and_effects ⟨42, 6, 3, 1⟩ closeWorld
  have h4 := h.2.2.2 (by decide)
  exact ⟨h.2.1, h4.1.trans rfl, h4.2⟩

/-- C6 counterexample: when the pipe or pty creation of _splice fails, the
exception propagates but the descriptor orig_fd_dup opened by the first
setup step is still open, so the claim that every earlier descriptor is
closed before the error propagates is false. -/
theorem splice_setup_leak_counterexample :
    (spliceSetup (some SetupStep.mkChannel)).1 = Except.error SetupStep.mkChannel ∧
    (spliceSetup (some SetupStep.mkChannel)).2 = [origFdDupFd] ∧
    (spliceSetup (some SetupStep.mkChannel)).2 ≠ [] := by
  refine ⟨rfl, rfl, by decide⟩

/-- C6 amended: a failure in any setup step of _splice does propagate to
the caller of start, but the source closes none of the descriptors opened
by the earlier steps: whenever a step after the initial os.dup fails, the
saved duplicate orig_fd_dup (and, later, the channel and outpipe ends)
remains open. -/
theorem splice_setup_propagates_but_leaks : ∀ f : SetupStep,
    (spliceSetup (some f)).1 = Except.error f ∧
    (f ≠ SetupStep.dupOrig → origFdDupFd ∈ (spliceSetup (some f)).2) := by
  intro f
  cases f with
  | dupOrig => exact ⟨rfl, fun h => absurd rfl h⟩
  | mkChannel => exact ⟨rfl, fun _ => by decide⟩
  | mkOutpipe => exact ⟨rfl, fun _ => by decide⟩
  | doFork => exact ⟨rfl, fun _ => by decide⟩

/-- Witness for C6 amended at the fork step. -/
theorem splice_setup_leak_witness :
    (spliceSetup (some SetupStep.doFork)).1 = Except.error SetupStep.doFork ∧
    origFdDupFd ∈ (spliceSetup (some SetupStep.doFork)).2 := by
  have h := splice_setup_propagates_but_leaks SetupStep.doFork
  exact ⟨h.1, h.2 (by decide)⟩

/-- C9: a UnitedStdTrap splices only the stdout fd (its os-call trace
contains exactly the calls of one Splicer start, hence one fork, followed
by the dup that saves the original stderr and the dup2 that redirects the
stderr fd onto the spliced stdout target); after construction both stdout
and stderr point at the channel write end while the saved duplicate holds
the original stderr description; after close the three buffer attributes
std, stdout and stderr all hold the one captured stream, the stderr fd is
restored from the saved duplicate, and the duplicate is closed. -/
theorem united_trap_one_splice_combined_buffer :
    ∀ (world : World) (stdout_fd stderr_fd orig_dup r w opr opw stderr_dupfd : Fd)
      (chanR chanW outR outW : OFD) (pid : Nat) (oErr : OFD)
      (R : (UnitedStdTrap × World) × (UnitedStdTrap × World)),
    world.table stderr_fd = some oErr →
    stdout_fd ≠ stderr_fd → stdout_fd ≠ r → stdout_fd ≠ w → stdout_fd ≠ opr →
    stdout_fd ≠ opw → stdout_fd ≠ stderr_dupfd →
    stderr_fd ≠ orig_dup → stderr_fd ≠ r → stderr_fd ≠ w → stderr_fd ≠ opr →
    stderr_fd ≠ opw → stderr_fd ≠ stderr_dupfd →
    stderr_dupfd ≠ orig_dup → stderr_dupfd ≠ stdout_fd →
    R = unitedRound world stdout_fd stderr_fd orig_dup r w opr opw stderr_dupfd
      chanR chanW outR outW pid →
    R.1.2.trace = world.trace ++
      [OsAction.dupCall stdout_fd orig_dup, OsAction.pipeCreate r w,
       OsAction.dup2 w stdout_fd, OsAction.closeFd w, OsAction.pipeCreate opr opw,
       OsAction.fork, OsAction.closeFd opw, OsAction.closeFd r,
       OsAction.dupCall stderr_fd stderr_dupfd, OsAction.dup2 stdout_fd stderr_fd] ∧
    R.1.2.table stdout_fd = some chanW ∧
    R.1.2.table stderr_fd = some chanW ∧
    R.1.2.table stderr_dupfd = some oErr ∧
    R.2.1.std = some world.outpipeBytes ∧
    R.2.1.stdout = some world.outpipeBytes ∧
    R.2.1.stderr = some world.outpipeBytes ∧
    R.2.2.table stderr_fd = some oErr ∧
    R.2.2.table stderr_dupfd = none := by
  intro world stdout_fd stderr_fd orig_dup r w opr opw stderr_dupfd chanR chanW
    outR outW pid oErr R
  intro hErr h1 h2 h3 h4 h5 h6 h7 h8 h9 h10 h11 h12 h13 h14 hR
  subst hR
  refine ⟨?_, ?_, ?_, ?_, rfl, rfl, rfl, ?_, ?_⟩
  · simp [unitedRound, UnitedStdTrap.init, spliceParent, World.dup, World.pipe,
      World.dup2, World.closeFd, World.fork]
  · simp [unitedRound, UnitedStdTrap.init, spliceParent, World.dup, World.pipe,
      World.dup2, World.closeFd, World.fork, h1, h2, h3, h4, h5, h6]
  · simp [unitedRound, UnitedStdTrap.init, spliceParent, World.dup, World.pipe,
      World.dup2, World.closeFd, World.fork, h1, h2, h3, h4, h5, h6]
  · simp [unitedRound, UnitedStdTrap.init, spliceParent, World.dup, World.pipe,
      World.dup2, World.closeFd, World.fork, hErr, h7, h8, h9, h10, h11,
      Ne.symm h1, Ne.symm h12]
  · simp [unitedRound, UnitedStdTrap.init, UnitedStdTrap.close, Splicer.close,
      spliceParent, World.dup, World.pipe, World.dup2, World.closeFd, World.fork,
      World.kill, World.readToEof, World.waitpid, hErr, h7, h8, h9, h10, h11,
      h12, h13, h14, Ne.symm h1, Ne.symm h12, h2, h3, h4, h5, h6]
  · simp [unitedRound, UnitedStdTrap.init, UnitedStdTrap.close, Splicer.close,
      spliceParent, World.dup, World.pipe, World.dup2, World.closeFd, World.fork,
      World.kill, World.readToEof, World.waitpid]

/-- Concrete world for the C9 witness: stdout fd 1 points at description
100, stderr fd 2 at description 101, and the collector will deliver the
bytes [7, 8]. -/
def unitedW0 : World :=
  { table := fun f => if f = 1 then some 100 else if f = 2 then some 101 else none
    outpipeBytes := [7, 8]
    reaped := false
    trace := [] }

/-- Witness for C9 at concrete descriptors. -/
theorem united_trap_witness :
    (unitedRound unitedW0 1 2 3 4 5 6 7 8 20 21 22 23 99).2.2.table 2 = some 101 ∧
    (unitedRound unitedW0 1 2 3 4 5 6 7 8 20 21 22 23 99).2.2.table 8 = none ∧
    (unitedRound unitedW0 1 2 3 4 5 6 7 8 20 21 22 23 99).2.1.std = some [7, 8] := by
  have h := united_trap_one_splice_combined_buffer unitedW0 1 2 3 4 5 6 7 8 20 21 22 23 99 101
    (unitedRound unitedW0 1 2 3 4 5 6 7 8 20 21 22 23 99) rfl
    (by decide) (by decide) (by decide) (by decide) (by decide) (by decide)
    (by decide) (by decide) (by decide) (by decide) (by decide) (by decide)
    (by decide) (by decide) rfl
  exact ⟨h.2.2.2.2.2.2.2.1, h.2.2.2.2.2.2.2.2, h.2.2.2.2.1⟩

/-- C5 counterexample: the claim says set_blocking changes only O_NONBLOCK
and leaves the other status flags as they were; but on a descriptor whose
status word is exactly O_APPEND, set_blocking(fd, False) clears O_APPEND
(bit 10), because the source passes a bare mask to F_SETFL instead of
read-modify-writing the current flags. -/
theorem set_blocking_clobbers_flags :
    (set_blocking O_APPEND false).testBit 10 = false ∧ O_APPEND.testBit 10 = true := by
  constructor
  · decide
  · decide

/-- C5 amended: set_blocking does set O_NONBLOCK (bit 11) when asked for
non-blocking mode and clears it when asked for blocking mode, but it
overwrites the other modifiable status flags wholesale: unblocking clears
them (here O_APPEND, bit 10) and blocking sets them, because the argument
passed to F_SETFL is the bare mask O_NONBLOCK or its complement. -/
theorem set_blocking_sets_nonblock_but_overwrites : ∀ status : Nat,
    (set_blocking status false).testBit 11 = true ∧
    (set_blocking status true).testBit 11 = false ∧
    (set_blocking status false).testBit 10 = false ∧
    (set_blocking status true).testBit 10 = true := by
  intro status
  refine ⟨?_, ?_, ?_, ?_⟩ <;>
    simp +decide [set_blocking, fcntl_F_SETFL, Nat.testBit_lor, Nat.testBit_land,
      SETFL_MASK, ALL_BITS, O_APPEND, O_NONBLOCK, O_ASYNC]
